import Mathlib

/-!
Verification of the curerr error-classification library (src/lib.rs).

The library defines `CursedErrorType` (leaf error kinds), `CursedError`
(domain categories, most carrying a `CursedErrorType`), the wrapper
`CursedErrorHandle` (a category plus a free-text reason), its `Display`
and `Debug` renderings, and a conversion from `std::io::ErrorKind`.

All of these are pure total functions; they are embedded below directly
from the source.  Rust's `Debug` rendering of a `String` field escapes
special characters (quote, backslash, control characters); the escaping
is modelled exactly for ASCII (characters above U+007F, which Rust
treats via its printable-character tables, are modelled as printable —
no claim below depends on non-ASCII input).
-/

namespace Curerr

/-- Leaf error kinds: `CursedErrorType` in src/lib.rs. -/
inductive CursedErrorType : Type
  | NotImplemented
  | AlreadyExists
  | AccessDenied
  | NotSupported
  | Interrupted
  | NotEnough
  | Timedout
  | Overflow
  | NotFound
  | Refused
  | Invalid
  | Aborted
  | Reset
  | Parse
deriving DecidableEq, Fintype, Repr

/-- `CursedErrorType::to_str` from src/lib.rs: the fixed lowercase phrase
for each kind. -/
def CursedErrorType.to_str : CursedErrorType → String
  | .NotImplemented => "not implemented"
  | .AlreadyExists => "already exists"
  | .AccessDenied => "access denied"
  | .NotSupported => "not supported"
  | .Interrupted => "interrupted"
  | .NotEnough => "not enough"
  | .Timedout => "timed out"
  | .NotFound => "not found"
  | .Overflow => "overflow"
  | .Refused => "refused"
  | .Invalid => "invalid"
  | .Aborted => "aborted"
  | .Reset => "reset"
  | .Parse => "parse"

/-- Error categories: `CursedError` in src/lib.rs.  Eleven domain variants
each carrying a `CursedErrorType`, plus the sentinels `NoError` and
`Unknown`. -/
inductive CursedError : Type
  | Connection (err : CursedErrorType)
  | Address (err : CursedErrorType)
  | Memory (err : CursedErrorType)
  | Buffer (err : CursedErrorType)
  | Envvar (err : CursedErrorType)
  | Other (err : CursedErrorType)
  | Input (err : CursedErrorType)
  | File (err : CursedErrorType)
  | Path (err : CursedErrorType)
  | Data (err : CursedErrorType)
  | Call (err : CursedErrorType)
  | NoError
  | Unknown
deriving DecidableEq, Fintype, Repr

/-- `impl ToString for CursedError` from src/lib.rs: the rendering of a
category, `format!("<domain> {}", err.to_str())` for domain variants,
`err.to_str()` bare for `Other`, and the fixed sentinel strings. -/
def CursedError.to_string : CursedError → String
  | .Connection err => "connection " ++ err.to_str
  | .Address err => "address " ++ err.to_str
  | .Buffer err => "buffer " ++ err.to_str
  | .Envvar err => "envvar " ++ err.to_str
  | .Memory err => "memory " ++ err.to_str
  | .Input err => "input " ++ err.to_str
  | .File err => "file " ++ err.to_str
  | .Path err => "path " ++ err.to_str
  | .Call err => "call " ++ err.to_str
  | .Data err => "data " ++ err.to_str
  | .Other err => err.to_str
  | .NoError => "no error"
  | .Unknown => "unknown"

/-- The error value: `CursedErrorHandle` in src/lib.rs, one category and
one reason string. -/
structure CursedErrorHandle : Type where
  error : CursedError
  reason : String
deriving DecidableEq, Repr

/-- `CursedErrorHandle::new` from src/lib.rs: stores both arguments
unchanged. -/
def CursedErrorHandle.new (error : CursedError) (reason : String) : CursedErrorHandle :=
  { error := error, reason := reason }

/-- `CursedErrorHandle::get_error` from src/lib.rs. -/
def CursedErrorHandle.get_error (h : CursedErrorHandle) : CursedError :=
  h.error

/-- `CursedErrorHandle::get_reason` from src/lib.rs. -/
def CursedErrorHandle.get_reason (h : CursedErrorHandle) : String :=
  h.reason

/-- `impl Display for CursedErrorHandle` from src/lib.rs:
`write!(f, "{} error: \"{}\"", self.error.to_string(), self.reason)`. -/
def CursedErrorHandle.fmtDisplay (h : CursedErrorHandle) : String :=
  h.error.to_string ++ " error: \"" ++ h.reason ++ "\""

/-- Rust's `char::escape_debug` with double quotes escaped, as used by
`Debug for str`: `\0`, `\t`, `\r`, `\n`, `\\` and `\"` get two-character
escapes, other control characters become `\u{..}` (lowercase hex), and
printable characters stand for themselves.  Characters above U+007F are
modelled as printable. -/
def escapeDebugChar (c : Char) : List Char :=
  if c = '\x00' then ['\\', '0']
  else if c = '\t' then ['\\', 't']
  else if c = '\r' then ['\\', 'r']
  else if c = '\n' then ['\\', 'n']
  else if c = '\\' then ['\\', '\\']
  else if c = '"' then ['\\', '"']
  else if c.toNat < 0x20 ∨ c.toNat = 0x7f then
    '\\' :: 'u' :: '\x7b' :: (Nat.toDigits 16 c.toNat ++ ['\x7d'])
  else [c]

/-- Escape every character of a string body, as `Debug for str` does
between its surrounding quotes. -/
def escapeDebug (l : List Char) : List Char :=
  l.flatMap escapeDebugChar

/-- `impl Debug for CursedErrorHandle` from src/lib.rs:
`f.debug_tuple(&self.error.to_string()).field(&self.reason).finish()`,
which renders as the tuple name (written raw), an opening parenthesis,
the reason formatted with `Debug for String` (surrounding quotes, body
escaped), and a closing parenthesis. -/
def CursedErrorHandle.fmtDebug (h : CursedErrorHandle) : String :=
  h.error.to_string ++ "(\"" ++ String.mk (escapeDebug h.reason.data) ++ "\")"

/-- The stable variants of `std::io::ErrorKind` consumed by the
conversion in src/lib.rs: the fifteen explicitly matched kinds plus the
stable kinds that fall to the `_ => Self::Unknown` catch-all arm. -/
inductive IoErrorKind : Type
  | NotFound
  | PermissionDenied
  | ConnectionRefused
  | ConnectionReset
  | ConnectionAborted
  | NotConnected
  | AddrInUse
  | AddrNotAvailable
  | BrokenPipe
  | AlreadyExists
  | WouldBlock
  | InvalidInput
  | InvalidData
  | TimedOut
  | WriteZero
  | Interrupted
  | Unsupported
  | UnexpectedEof
  | OutOfMemory
  | Other
deriving DecidableEq, Fintype, Repr

/-- `impl From<ErrorKind> for CursedError` from src/lib.rs: fifteen
explicit arms and a `_ => Self::Unknown` catch-all. -/
def CursedError.fromIoErrorKind : IoErrorKind → CursedError
  | .NotFound => .Other .NotFound
  | .PermissionDenied => .Other .AccessDenied
  | .ConnectionRefused => .Connection .Refused
  | .ConnectionReset => .Connection .Reset
  | .ConnectionAborted => .Connection .Aborted
  | .NotConnected => .Connection .NotImplemented
  | .AddrInUse => .Address .AlreadyExists
  | .AddrNotAvailable => .Address .NotSupported
  | .AlreadyExists => .Other .AlreadyExists
  | .InvalidInput => .Input .Invalid
  | .InvalidData => .Data .Invalid
  | .TimedOut => .Call .Timedout
  | .Interrupted => .Other .Interrupted
  | .Unsupported => .Other .NotSupported
  | .OutOfMemory => .Memory .NotEnough
  | _ => .Unknown

/-- The platform-kind conversion table written out from the spec's §4.4
table (`from_platform_kind`), to be compared with the source's
`CursedError.fromIoErrorKind`: not-found maps to Other(NotFound),
permission-denied to Other(AccessDenied), connection-refused to
Connection(Refused), connection-reset to Connection(Reset),
connection-aborted to Connection(Aborted), not-connected to
Connection(NotImplemented), address-in-use to Address(AlreadyExists),
address-unavailable to Address(NotSupported), already-exists to
Other(AlreadyExists), invalid-input to Input(Invalid), invalid-data to
Data(Invalid), timed-out to Call(Timedout), interrupted to
Other(Interrupted), unsupported to Other(NotSupported), out-of-memory
to Memory(NotEnough), and anything else to Unknown. -/
def from_platform_kind_spec : IoErrorKind → CursedError
  | .NotFound => .Other .NotFound
  | .PermissionDenied => .Other .AccessDenied
  | .ConnectionRefused => .Connection .Refused
  | .ConnectionReset => .Connection .Reset
  | .ConnectionAborted => .Connection .Aborted
  | .NotConnected => .Connection .NotImplemented
  | .AddrInUse => .Address .AlreadyExists
  | .AddrNotAvailable => .Address .NotSupported
  | .AlreadyExists => .Other .AlreadyExists
  | .InvalidInput => .Input .Invalid
  | .InvalidData => .Data .Invalid
  | .TimedOut => .Call .Timedout
  | .Interrupted => .Other .Interrupted
  | .Unsupported => .Other .NotSupported
  | .OutOfMemory => .Memory .NotEnough
  | _ => .Unknown

/-- `needle` occurs as a contiguous substring of `hay`. -/
def strContains (hay needle : String) : Prop :=
  needle.data <:+: hay.data

instance (hay needle : String) : Decidable (strContains hay needle) :=
  List.decidableInfix needle.data hay.data

/-- A character that `Debug for str` leaves unchanged: printable ASCII
other than backslash and double quote. -/
def plainChar (c : Char) : Prop :=
  0x20 ≤ c.toNat ∧ c.toNat ≤ 0x7e ∧ c ≠ '\\' ∧ c ≠ '"'

/-- A string whose characters all render unchanged under the debug
escaping. -/
def plainStr (s : String) : Prop :=
  ∀ c ∈ s.data, plainChar c

instance (c : Char) : Decidable (plainChar c) := by
  unfold plainChar
  infer_instance

instance (s : String) : Decidable (plainStr s) := by
  unfold plainStr
  infer_instance

/-- A concatenation witness yields substring containment. -/
theorem strContains_of_eq_append (hay pre needle post : String)
    (h : hay = pre ++ needle ++ post) : strContains hay needle := by
  subst h
  exact ⟨pre.data, post.data, by simp⟩

/-- Characters needing no escape are rendered unchanged by
`escapeDebugChar`. -/
theorem escapeDebugChar_plain (c : Char) (h : plainChar c) :
    escapeDebugChar c = [c] := by
  obtain ⟨h1, h2, h3, h4⟩ := h
  have e0 : c ≠ '\x00' := fun e => absurd (e ▸ h1) (by decide)
  have e1 : c ≠ '\t' := fun e => absurd (e ▸ h1) (by decide)
  have e2 : c ≠ '\r' := fun e => absurd (e ▸ h1) (by decide)
  have e3 : c ≠ '\n' := fun e => absurd (e ▸ h1) (by decide)
  have e4 : ¬ (c.toNat < 0x20 ∨ c.toNat = 0x7f) := by omega
  simp [escapeDebugChar, e0, e1, e2, e3, h3, h4, e4]

/-- A string of unescaped characters passes through `escapeDebug`
unchanged. -/
theorem escapeDebug_plain (l : List Char) (h : ∀ c ∈ l, plainChar c) :
    escapeDebug l = l := by
  induction l with
  | nil => rfl
  | cons c t ih =>
      have hc : plainChar c := h c (List.mem_cons_self c t)
      have ht : ∀ x ∈ t, plainChar x := fun x hx => h x (List.mem_cons_of_mem c hx)
      simp [escapeDebug, List.flatMap_cons, escapeDebugChar_plain c hc]
      exact ih ht

/-- C1: the platform-kind conversion (`From<ErrorKind> for CursedError`)
is total and agrees with the spec's §4.4 table on every input kind,
including the catch-all kinds, which all map to `Unknown`. -/
theorem fromIoErrorKind_eq_spec_table :
    ∀ k : IoErrorKind, CursedError.fromIoErrorKind k = from_platform_kind_spec k := by
  decide

/-- C2: for every category and reason (the empty string included) the
`Display` rendering of `CursedErrorHandle::new(c, r)` is exactly
`c.to_string ++ " error: \"" ++ r ++ "\""`; in particular for
`Path(Invalid)` and reason `"path is invalid"` it is
`"path invalid error: \"path is invalid\""`. -/
theorem fmtDisplay_format :
    (∀ (c : CursedError) (r : String),
      (CursedErrorHandle.new c r).fmtDisplay = c.to_string ++ " error: \"" ++ r ++ "\"") ∧
    (CursedErrorHandle.new (CursedError.Path CursedErrorType.Invalid)
      "path is invalid").fmtDisplay = "path invalid error: \"path is invalid\"" :=
  ⟨fun _ _ => rfl, by decide⟩

/-- C3: every payload-carrying category renders as its lowercase domain
word, a space, and the kind's phrase — `Envvar` as exactly "envvar",
`Other` with no domain prefix — while `NoError` renders as "no error"
and `Unknown` as "unknown". -/
theorem to_string_renders_domain_and_kind :
    (∀ t : CursedErrorType,
      (CursedError.Connection t).to_string = "connection " ++ t.to_str ∧
      (CursedError.Address t).to_string = "address " ++ t.to_str ∧
      (CursedError.Memory t).to_string = "memory " ++ t.to_str ∧
      (CursedError.Buffer t).to_string = "buffer " ++ t.to_str ∧
      (CursedError.Envvar t).to_string = "envvar " ++ t.to_str ∧
      (CursedError.Input t).to_string = "input " ++ t.to_str ∧
      (CursedError.File t).to_string = "file " ++ t.to_str ∧
      (CursedError.Path t).to_string = "path " ++ t.to_str ∧
      (CursedError.Data t).to_string = "data " ++ t.to_str ∧
      (CursedError.Call t).to_string = "call " ++ t.to_str ∧
      (CursedError.Other t).to_string = t.to_str) ∧
    CursedError.NoError.to_string = "no error" ∧
    CursedError.Unknown.to_string = "unknown" := by
  refine ⟨fun t => ?_, rfl, rfl⟩
  exact ⟨rfl, rfl, rfl, rfl, rfl, rfl, rfl, rfl, rfl, rfl, rfl⟩

/-- C4: `CursedErrorType::to_str` returns exactly the fixed lowercase
phrase of the spec's table for each of the fourteen kinds, with no
variant unmapped. -/
theorem to_str_table :
    CursedErrorType.NotImplemented.to_str = "not implemented" ∧
    CursedErrorType.AlreadyExists.to_str = "already exists" ∧
    CursedErrorType.AccessDenied.to_str = "access denied" ∧
    CursedErrorType.NotSupported.to_str = "not supported" ∧
    CursedErrorType.Interrupted.to_str = "interrupted" ∧
    CursedErrorType.NotEnough.to_str = "not enough" ∧
    CursedErrorType.Timedout.to_str = "timed out" ∧
    CursedErrorType.NotFound.to_str = "not found" ∧
    CursedErrorType.Overflow.to_str = "overflow" ∧
    CursedErrorType.Refused.to_str = "refused" ∧
    CursedErrorType.Invalid.to_str = "invalid" ∧
    CursedErrorType.Aborted.to_str = "aborted" ∧
    CursedErrorType.Reset.to_str = "reset" ∧
    CursedErrorType.Parse.to_str = "parse" :=
  ⟨rfl, rfl, rfl, rfl, rfl, rfl, rfl, rfl, rfl, rfl, rfl, rfl, rfl, rfl⟩

set_option maxRecDepth 10000 in
/-- C5 counterexample: the `Debug` rendering escapes the reason string
(Rust's `Debug for String`), so for the reason `a"b` the output
`path invalid("a\"b")` does not contain the literal reason as a
substring — the claim that it always does is false. -/
theorem fmtDebug_not_always_contains_reason :
    ¬ strContains
      ((CursedErrorHandle.new (CursedError.Path CursedErrorType.Invalid) "a\"b").fmtDebug)
      "a\"b" := by
  decide

/-- C5 amended: the `Debug` rendering of `CursedErrorHandle::new(c, r)`
always contains `c.to_string` as a substring, and contains the literal
reason `r` as a substring whenever `r` consists of printable ASCII
characters other than double quote and backslash (characters the debug
escaping leaves unchanged). -/
theorem fmtDebug_contains_category_and_plain_reason (c : CursedError) (r : String) :
    strContains ((CursedErrorHandle.new c r).fmtDebug) c.to_string ∧
    (plainStr r → strContains ((CursedErrorHandle.new c r).fmtDebug) r) := by
  constructor
  · refine ⟨[], ("(\"" ++ String.mk (escapeDebug r.data) ++ "\")").data, ?_⟩
    simp [CursedErrorHandle.fmtDebug, CursedErrorHandle.new]
  · intro hp
    have he : escapeDebug r.data = r.data := escapeDebug_plain r.data hp
    refine ⟨(c.to_string ++ "(\"").data, "\")".data, ?_⟩
    simp [CursedErrorHandle.fmtDebug, CursedErrorHandle.new, he]

set_option maxRecDepth 10000 in
/-- C5 witness: at `Path(Invalid)` with reason "path is invalid" (all
plain characters) the debug rendering contains both the category's
rendering and the reason. -/
theorem fmtDebug_contains_category_and_plain_reason_witness :
    plainStr "path is invalid" ∧
    (strContains
      ((CursedErrorHandle.new (CursedError.Path CursedErrorType.Invalid)
        "path is invalid").fmtDebug)
      (CursedError.Path CursedErrorType.Invalid).to_string ∧
     strContains
      ((CursedErrorHandle.new (CursedError.Path CursedErrorType.Invalid)
        "path is invalid").fmtDebug)
      "path is invalid") :=
  ⟨by decide,
   (fmtDebug_contains_category_and_plain_reason
      (CursedError.Path CursedErrorType.Invalid) "path is invalid").1,
   (fmtDebug_contains_category_and_plain_reason
      (CursedError.Path CursedErrorType.Invalid) "path is invalid").2 (by decide)⟩

/-- C6: every public operation is total — construction succeeds for
every category/reason pair, and `to_str`, `to_string`, the display and
debug renderings, and the platform-kind conversion return a result for
every input. -/
theorem operations_total :
    (∀ k : CursedErrorType, ∃ s, k.to_str = s) ∧
    (∀ c : CursedError, ∃ s, c.to_string = s) ∧
    (∀ (c : CursedError) (r : String), ∃ h, CursedErrorHandle.new c r = h) ∧
    (∀ h : CursedErrorHandle, ∃ s, h.fmtDisplay = s) ∧
    (∀ h : CursedErrorHandle, ∃ s, h.fmtDebug = s) ∧
    (∀ k : IoErrorKind, ∃ c, CursedError.fromIoErrorKind k = c) :=
  ⟨fun _ => ⟨_, rfl⟩, fun _ => ⟨_, rfl⟩, fun _ _ => ⟨_, rfl⟩,
   fun _ => ⟨_, rfl⟩, fun _ => ⟨_, rfl⟩, fun _ => ⟨_, rfl⟩⟩

/-- C7: rendering is deterministic — the display and debug renderings
depend only on the handle's category and reason, so any two handles
agreeing on both fields render identically. -/
theorem rendering_deterministic (h₁ h₂ : CursedErrorHandle)
    (he : h₁.error = h₂.error) (hr : h₁.reason = h₂.reason) :
    h₁.fmtDisplay = h₂.fmtDisplay ∧ h₁.fmtDebug = h₂.fmtDebug := by
  simp [CursedErrorHandle.fmtDisplay, CursedErrorHandle.fmtDebug, he, hr]

/-- C7 witness: the determinism theorem applied to one concrete handle
against itself. -/
theorem rendering_deterministic_witness :
    (CursedErrorHandle.new CursedError.Unknown "boom").fmtDisplay =
      (CursedErrorHandle.new CursedError.Unknown "boom").fmtDisplay ∧
    (CursedErrorHandle.new CursedError.Unknown "boom").fmtDebug =
      (CursedErrorHandle.new CursedError.Unknown "boom").fmtDebug :=
  rendering_deterministic _ _ rfl rfl

/-- C8: constructor/accessor round-trip — `get_error` and `get_reason`
return exactly the values passed to `new`, unmodified. -/
theorem new_get_roundtrip :
    ∀ (c : CursedError) (r : String),
      (CursedErrorHandle.new c r).get_error = c ∧
      (CursedErrorHandle.new c r).get_reason = r :=
  fun _ _ => ⟨rfl, rfl⟩

/-- C9: the platform-kind conversion never produces `NoError` nor any of
the domains `Buffer`, `Envvar`, `File`, `Path`; its result is always
`Other`, `Connection`, `Address`, `Input`, `Data`, `Call`, `Memory`, or
`Unknown`. -/
theorem fromIoErrorKind_range :
    ∀ k : IoErrorKind,
      (CursedError.fromIoErrorKind k ≠ CursedError.NoError ∧
       ∀ t : CursedErrorType,
         CursedError.fromIoErrorKind k ≠ CursedError.Buffer t ∧
         CursedError.fromIoErrorKind k ≠ CursedError.Envvar t ∧
         CursedError.fromIoErrorKind k ≠ CursedError.File t ∧
         CursedError.fromIoErrorKind k ≠ CursedError.Path t) ∧
      ((∃ t, CursedError.fromIoErrorKind k = CursedError.Other t) ∨
       (∃ t, CursedError.fromIoErrorKind k = CursedError.Connection t) ∨
       (∃ t, CursedError.fromIoErrorKind k = CursedError.Address t) ∨
       (∃ t, CursedError.fromIoErrorKind k = CursedError.Input t) ∨
       (∃ t, CursedError.fromIoErrorKind k = CursedError.Data t) ∨
       (∃ t, CursedError.fromIoErrorKind k = CursedError.Call t) ∨
       (∃ t, CursedError.fromIoErrorKind k = CursedError.Memory t) ∨
       CursedError.fromIoErrorKind k = CursedError.Unknown) := by
  decide

set_option maxRecDepth 10000 in
set_option maxHeartbeats 2000000 in
/-- C10: category rendering is injective — no two distinct
`CursedError` values share a `to_string` rendering. -/
theorem to_string_injective :
    ∀ c₁ c₂ : CursedError, c₁.to_string = c₂.to_string → c₁ = c₂ := by
  decide

/-- C10 witness: the injectivity theorem applied at a concrete pair. -/
theorem to_string_injective_witness :
    (CursedError.Call CursedErrorType.Timedout).to_string =
      (CursedError.Call CursedErrorType.Timedout).to_string ∧
    CursedError.Call CursedErrorType.Timedout = CursedError.Call CursedErrorType.Timedout :=
  ⟨rfl, to_string_injective _ _ rfl⟩

end Curerr
